import Mathlib

/-!
Shallow embedding of the OAuth token-lifecycle subsystem of the plants
repository: the token store (backend/src/tokenStore.ts), the OAuth helper
functions (oauth.ts: exchangeCodeForTokens, refreshAccessToken,
getValidAccessToken), and the request authenticator
(backend/src/authMiddleware.ts: extractPortalId, authenticateRequest),
together with the request-body decoding shared by the middleware and the
/api/plants/associate route (backend/src/server.ts).

Machine integers and epoch-millisecond timestamps are modelled as Int.
JavaScript NaN results of parseInt are modelled as the none case of
Option Int.  Platform collaborators (the authorization server's token
endpoint and JSON.parse) are parameters of the embedded functions, so a
theorem can quantify over their behaviour and count the network calls a
code path performs.
-/

/-- JSON values as delivered in parsed request bodies.  Array values are
omitted: none of the inspected body positions in the source carries an
array, and no claim mentions one. -/
inductive JsonValue where
  | null : JsonValue
  | bool (b : Bool) : JsonValue
  | num (n : Int) : JsonValue
  | str (s : String) : JsonValue
  | obj (fields : List (String × JsonValue)) : JsonValue

/-- Property access on a parsed JSON value: the JavaScript expression
v.k is undefined (here: none) when v is not an object or lacks the key. -/
def JsonValue.getField : JsonValue → String → Option JsonValue
  | .obj fs, k => (fs.find? (fun p => p.1 == k)).map Prod.snd
  | _, _ => none

/-- JavaScript truthiness of a JSON value: null, false, 0 and the empty
string are falsy; objects are always truthy. -/
def JsonValue.truthy : JsonValue → Bool
  | .null => false
  | .bool b => b
  | .num n => n != 0
  | .str s => s != ""
  | .obj _ => true

/-- Truthiness of a possibly-undefined value: undefined is falsy. -/
def truthyOpt : Option JsonValue → Bool
  | none => false
  | some v => v.truthy

/-- Whether a JSON value is a string (the typeof parsed === .str test in
the double-decoding logic). -/
def JsonValue.isStr : JsonValue → Bool
  | .str _ => true
  | _ => false

/-- JavaScript ToString on a JSON value, as applied implicitly by
parseInt when its argument is not a string. -/
def JsonValue.jsToString : JsonValue → String
  | .null => "null"
  | .bool b => if b then "true" else "false"
  | .num n => toString n
  | .str s => s
  | .obj _ => "[object Object]"

/-- The leading decimal digits of a character list, as a number; none when
there is no leading digit (parseInt returns NaN there). -/
def parseIntDigits (cs : List Char) : Option Nat :=
  let ds := cs.takeWhile Char.isDigit
  if ds.isEmpty then none
  else some (ds.foldl (fun a c => a * 10 + (c.toNat - 48)) 0)

/-- JavaScript parseInt(s, 10): skip leading whitespace, optional sign,
then leading decimal digits; NaN (none) when no digit follows. -/
def parseIntJS (s : String) : Option Int :=
  match s.toList.dropWhile Char.isWhitespace with
  | '-' :: rest => (parseIntDigits rest).map (fun n => -(n : Int))
  | '+' :: rest => (parseIntDigits rest).map (fun n => (n : Int))
  | rest => (parseIntDigits rest).map (fun n => (n : Int))

/-- parseInt applied to a possibly-undefined JSON value, as in
parseInt(body.origin.portalId, 10): undefined stringifies to "undefined"
and parses to NaN. -/
def jsParseInt (v : Option JsonValue) : Option Int :=
  match v with
  | none => parseIntJS "undefined"
  | some jv => parseIntJS jv.jsToString

/-- The JavaScript expression a || b for a possibly-undefined string a:
undefined and the empty string fall through to the default. -/
def orDefaultStr (x : Option String) (d : String) : String :=
  match x with
  | none => d
  | some s => if s = "" then d else s

/-- The JavaScript expression a || b for a possibly-undefined number a:
undefined and 0 fall through to the default (as in expiresIn || 1800). -/
def orDefaultNum (x : Option Int) (d : Int) : Int :=
  match x with
  | none => d
  | some n => if n = 0 then d else n

/-- Whether a possibly-undefined environment string is falsy, as tested by
the guards on CLIENT_ID / CLIENT_SECRET / HUBSPOT_ACCESS_TOKEN. -/
def falsyStr : Option String → Bool
  | none => true
  | some s => s == ""

/-- Process environment variables read by the embedded code. -/
structure Env where
  clientId : Option String
  clientSecret : Option String
  hubspotAccessToken : Option String

/-- The guard at the top of exchangeCodeForTokens and refreshAccessToken:
if either OAuth client credential is missing, the function throws. -/
def missingCreds (env : Env) : Bool :=
  falsyStr env.clientId || falsyStr env.clientSecret

/-- One OAuth credential record (tokenStore.ts interface TokenData):
expiresAt is an epoch timestamp in milliseconds. -/
structure TokenData where
  portalId : Int
  accessToken : String
  refreshToken : String
  expiresAt : Int
deriving DecidableEq

/-- The oauth_tokens table: at most one row per portal_id (UNIQUE). -/
abbrev Store := List TokenData

/-- tokenStore.ts getTokenData: point lookup of the full record by
portal id, none when no row exists. -/
def getTokenData (store : Store) (portalId : Int) : Option TokenData :=
  store.find? (fun r => r.portalId == portalId)

/-- tokenStore.ts storeTokens: the INSERT ... ON CONFLICT (portal_id)
DO UPDATE upsert.  With portal_id unique, the post-state holds the new
record for that portal and every other portal's record unchanged. -/
def storeTokens (store : Store) (td : TokenData) : Store :=
  td :: store.filter (fun r => r.portalId != td.portalId)

/-- A response of the authorization server's token endpoint
(hubspotClient.oauth.tokensApi.create).  Fields the source guards with
|| are modelled as possibly undefined. -/
structure TokenResponse where
  accessToken : String
  refreshToken : Option String
  expiresIn : Option Int
  hubId : Option String

/-- The error kinds surfaced by the embedded OAuth functions, one per
throw site in oauth.ts. -/
inductive OAuthError where
  | missingCredentials : OAuthError
  | unauthorizedTenant (portalId : Int) : OAuthError
  | noTokenData (portalId : Int) : OAuthError
  | refreshFailed (message : String) : OAuthError
  | exchangeFailed (message : String) : OAuthError
deriving DecidableEq

/-- Outcome of a call into the token refresh engine: the returned value
or error, the store after the call, and the list of refresh-grant calls
made to the authorization server (each element is the refresh_token that
was sent). -/
structure OAuthOutcome where
  result : Except OAuthError String
  store : Store
  calls : List String

/-- oauth.ts refreshAccessToken: guard the client credentials, load the
current record, perform one refresh-grant call with the stored
refresh_token, and on success persist the new record, keeping the old
refresh token when the response omits a new one and defaulting expiresIn
to 1800 seconds.  The server parameter maps the refresh_token sent to the
endpoint's response or error. -/
def refreshAccessToken (env : Env) (server : String → Except String TokenResponse)
    (now : Int) (store : Store) (portalId : Int) : OAuthOutcome :=
  if missingCreds env then
    ⟨.error .missingCredentials, store, []⟩
  else
    match getTokenData store portalId with
    | none => ⟨.error (.noTokenData portalId), store, []⟩
    | some currentTokenData =>
      match server currentTokenData.refreshToken with
      | .error msg => ⟨.error (.refreshFailed msg), store, [currentTokenData.refreshToken]⟩
      | .ok tokenResponse =>
        let expiresIn := orDefaultNum tokenResponse.expiresIn 1800
        let expiresAt := now + expiresIn * 1000
        let newTokenData : TokenData :=
          ⟨portalId, tokenResponse.accessToken,
           orDefaultStr tokenResponse.refreshToken currentTokenData.refreshToken,
           expiresAt⟩
        ⟨.ok newTokenData.accessToken, storeTokens store newTokenData,
         [currentTokenData.refreshToken]⟩

/-- oauth.ts getValidAccessToken: return the cached access token while
now < expiresAt - 5 minutes, otherwise delegate to refreshAccessToken;
fail when no record exists for the portal. -/
def getValidAccessToken (env : Env) (server : String → Except String TokenResponse)
    (now : Int) (store : Store) (portalId : Int) : OAuthOutcome :=
  match getTokenData store portalId with
  | none => ⟨.error (.unauthorizedTenant portalId), store, []⟩
  | some tokenData =>
    let bufferTime : Int := 5 * 60 * 1000
    if now ≥ tokenData.expiresAt - bufferTime then
      refreshAccessToken env server now store portalId
    else
      ⟨.ok tokenData.accessToken, store, []⟩

/-- oauth.ts exchangeCodeForTokens: guard credentials, call the token
endpoint with the authorization code, and on success build and upsert a
record whose portalId is parseInt(hubId || "0", 10) (0 when the response
omits hub_id) and whose expiresAt is now + (expiresIn || 1800) * 1000.
The source assigns the response's refreshToken directly; the SDK delivers
one on a code exchange, so an absent one is modelled as the empty string. -/
def exchangeCodeForTokens (env : Env) (server : String → Except String TokenResponse)
    (now : Int) (store : Store) (code : String) : Except OAuthError TokenData × Store :=
  if missingCreds env then
    (.error .missingCredentials, store)
  else
    match server code with
    | .error msg => (.error (.exchangeFailed msg), store)
    | .ok tokenResponse =>
      let expiresIn := orDefaultNum tokenResponse.expiresIn 1800
      let expiresAt := now + expiresIn * 1000
      let tokenData : TokenData :=
        ⟨(parseIntJS (orDefaultStr tokenResponse.hubId "0")).getD 0,
         tokenResponse.accessToken,
         (tokenResponse.refreshToken).getD "",
         expiresAt⟩
      (.ok tokenData, storeTokens store tokenData)

/-- The two-level property access body.a.b (and its optional-chained form
body.a?.b), undefined when either level is missing. -/
def jsGet2 (body : JsonValue) (k1 k2 : String) : Option JsonValue :=
  (body.getField k1).bind (fun v => v.getField k2)

/-- Result of extractPortalId: the source function returns number | null,
and the number can be NaN (parseInt of a non-numeric value). -/
inductive PortalIdResult where
  | null : PortalIdResult
  | nan : PortalIdResult
  | num (n : Int) : PortalIdResult
deriving DecidableEq

/-- Wrap a parseInt result: NaN (none) stays NaN, a parsed integer is a
number. -/
def toPortalIdResult : Option Int → PortalIdResult
  | none => .nan
  | some n => .num n

/-- authMiddleware.ts extractPortalId: test the candidate locations for
truthiness in source order — origin.portalId, then top-level portalId,
then context.portalId, then (for workflow actions) presence of
origin.extensionDefinitionId, in which case origin.portalId is parsed
even though it was just found falsy; return null when nothing matched. -/
def extractPortalId (body : JsonValue) : PortalIdResult :=
  if truthyOpt (jsGet2 body "origin" "portalId") then
    toPortalIdResult (jsParseInt (jsGet2 body "origin" "portalId"))
  else if truthyOpt (body.getField "portalId") then
    toPortalIdResult (jsParseInt (body.getField "portalId"))
  else if truthyOpt (jsGet2 body "context" "portalId") then
    toPortalIdResult (jsParseInt (jsGet2 body "context" "portalId"))
  else if truthyOpt (jsGet2 body "origin" "extensionDefinitionId") then
    toPortalIdResult (jsParseInt (jsGet2 body "origin" "portalId"))
  else
    .null

/-- What the request authenticator does with an inbound request. -/
inductive AuthOutcome where
  | badRequest : AuthOutcome
  | authFailed (e : OAuthError) : AuthOutcome
  | authenticated (portalId : Int) (accessToken : String) : AuthOutcome

/-- authMiddleware.ts authenticateRequest, after body decoding: extract
the portal id; every falsy result (null, NaN, 0) is rejected with HTTP
400; otherwise resolve a valid access token via getValidAccessToken and
attach portal id and token, turning any thrown error into HTTP 401. -/
def authenticateRequest (env : Env) (server : String → Except String TokenResponse)
    (now : Int) (store : Store) (body : JsonValue) : AuthOutcome × Store :=
  match extractPortalId body with
  | .null => (.badRequest, store)
  | .nan => (.badRequest, store)
  | .num n =>
    if n = 0 then (.badRequest, store)
    else
      let out := getValidAccessToken env server now store n
      match out.result with
      | .ok tok => (.authenticated n tok, out.store)
      | .error e => (.authFailed e, out.store)

/-- The double-decoding of a raw request body shared by
authenticateRequest (authMiddleware.ts lines 48-55) and the
/api/plants/associate and /api/workflow/water-plant handlers (server.ts):
JSON-decode the raw string, and if the result is itself a string decode
it once more; never decode a third time.  The parse parameter is the
platform's JSON.parse, none modelling a thrown SyntaxError.  The second
component counts the decode attempts made. -/
def decodeBody (parse : String → Option JsonValue) (raw : String) :
    Option JsonValue × Nat :=
  match parse raw with
  | none => (none, 1)
  | some (.str s) =>
    match parse s with
    | none => (none, 2)
    | some v => (some v, 2)
  | some v => (some v, 1)

/-- The steps of the /api/plants/associate handler up to the point where
it holds a bearer token (server.ts lines 406-478). -/
inductive AssociateStep where
  | invalidJson : AssociateStep
  | missingFields : AssociateStep
  | tokenNotConfigured : AssociateStep
  | proceeds (accessToken : String) : AssociateStep
deriving DecidableEq

/-- server.ts app.post /api/plants/associate, start of the handler:
decode the raw body (400 on bad JSON), require truthy contactId and
plantId (400 otherwise), then take the bearer token for all CRM calls
from the HUBSPOT_ACCESS_TOKEN environment variable (500 when unset),
never consulting the token store or getValidAccessToken. -/
def associateRoute (env : Env) (parse : String → Option JsonValue)
    (raw : String) : AssociateStep :=
  match (decodeBody parse raw).1 with
  | none => .invalidJson
  | some body =>
    if !truthyOpt (body.getField "contactId") || !truthyOpt (body.getField "plantId") then
      .missingFields
    else if falsyStr env.hubspotAccessToken then
      .tokenNotConfigured
    else
      .proceeds (env.hubspotAccessToken.getD "")

/-- A concrete stand-in for JSON.parse used by closed witnesses: the raw
body "one" decodes to an (empty) object, the raw body "two" decodes to
the string "one" (a doubly-encoded body), anything else fails. -/
def parseDemo : String → Option JsonValue :=
  fun s =>
    if s = "one" then some (.obj [])
    else if s = "two" then some (.str "one")
    else if s = "assoc" then some (.obj [("contactId", .str "1"), ("plantId", .str "2")])
    else none

/-- After an upsert, the lookup for the upserted portal id returns
exactly the new record. -/
theorem getTokenData_storeTokens_self (s : Store) (td : TokenData) :
    getTokenData (storeTokens s td) td.portalId = some td := by
  simp [getTokenData, storeTokens]

/-- Claim C1: for every tenant with a stored credential record and every
now with now at or past expiresAt minus five minutes, getValidAccessToken
performs exactly one refresh-grant call sending the stored refresh token,
returns the newly issued access token, and persists a record whose
expiresAt is now plus expiresIn times 1000 milliseconds, expiresIn
defaulting to 1800 seconds when the response omits it. -/
theorem c1_expiring_token_refreshed (env : Env)
    (server : String → Except String TokenResponse) (now : Int) (store : Store)
    (portalId : Int) (td : TokenData) (resp : TokenResponse)
    (hCreds : missingCreds env = false)
    (hGet : getTokenData store portalId = some td)
    (hExpiring : now ≥ td.expiresAt - 5 * 60 * 1000)
    (hServer : server td.refreshToken = .ok resp) :
    getValidAccessToken env server now store portalId =
      ⟨.ok resp.accessToken,
       storeTokens store ⟨portalId, resp.accessToken,
         orDefaultStr resp.refreshToken td.refreshToken,
         now + orDefaultNum resp.expiresIn 1800 * 1000⟩,
       [td.refreshToken]⟩
    ∧ getTokenData (getValidAccessToken env server now store portalId).store portalId =
        some ⟨portalId, resp.accessToken,
          orDefaultStr resp.refreshToken td.refreshToken,
          now + orDefaultNum resp.expiresIn 1800 * 1000⟩
    ∧ (resp.expiresIn = none → orDefaultNum resp.expiresIn 1800 = 1800) := by
  have h1 : getValidAccessToken env server now store portalId =
      ⟨.ok resp.accessToken,
       storeTokens store ⟨portalId, resp.accessToken,
         orDefaultStr resp.refreshToken td.refreshToken,
         now + orDefaultNum resp.expiresIn 1800 * 1000⟩,
       [td.refreshToken]⟩ := by
    unfold getValidAccessToken
    rw [hGet]
    simp only [if_pos hExpiring]
    unfold refreshAccessToken
    rw [hCreds, hGet]
    simp [hServer]
  refine ⟨h1, ?_, ?_⟩
  · rw [h1]
    exact getTokenData_storeTokens_self store _
  · intro h
    simp [orDefaultNum, h]

/-- Closed instance of C1: tenant 1 with expiresAt 1000 queried at
now = 2000 refreshes once with the stored refresh token and stores
expiresAt 2000 + 1800 * 1000 when the server omits expiresIn. -/
theorem c1_expiring_token_refreshed_witness :
    getValidAccessToken ⟨some "id", some "secret", none⟩
        (fun _ => .ok ⟨"new-at", none, none, none⟩) 2000 [⟨1, "at", "rt", 1000⟩] 1 =
      ⟨.ok "new-at",
       storeTokens [⟨1, "at", "rt", 1000⟩] ⟨1, "new-at", orDefaultStr none "rt",
         2000 + orDefaultNum none 1800 * 1000⟩,
       ["rt"]⟩ :=
  (c1_expiring_token_refreshed ⟨some "id", some "secret", none⟩
    (fun _ => .ok ⟨"new-at", none, none, none⟩) 2000 [⟨1, "at", "rt", 1000⟩] 1
    ⟨1, "at", "rt", 1000⟩ ⟨"new-at", none, none, none⟩ rfl rfl (by decide) rfl).1

/-- Claim C2: for every tenant with a stored credential record and every
now strictly before expiresAt minus the five-minute grace window,
getValidAccessToken returns the cached access token, makes no call to
the authorization server, and leaves the store unchanged. -/
theorem c2_valid_token_cached (env : Env)
    (server : String → Except String TokenResponse) (now : Int) (store : Store)
    (portalId : Int) (td : TokenData)
    (hGet : getTokenData store portalId = some td)
    (hFresh : now < td.expiresAt - 5 * 60 * 1000) :
    getValidAccessToken env server now store portalId =
      ⟨.ok td.accessToken, store, []⟩ := by
  unfold getValidAccessToken
  rw [hGet]
  simp only [if_neg (by omega : ¬ now ≥ td.expiresAt - 5 * 60 * 1000)]

/-- Closed instance of C2: tenant 1 with expiresAt far in the future is
served from the cache with no network call and an unchanged store. -/
theorem c2_valid_token_cached_witness :
    getValidAccessToken ⟨none, none, none⟩ (fun _ => .error "unused") 0
        [⟨1, "at", "rt", 10000000⟩] 1 =
      ⟨.ok "at", [⟨1, "at", "rt", 10000000⟩], []⟩ :=
  c2_valid_token_cached ⟨none, none, none⟩ (fun _ => .error "unused") 0
    [⟨1, "at", "rt", 10000000⟩] 1 ⟨1, "at", "rt", 10000000⟩ rfl (by decide)

/-- Counterexample to claim C3: a body holding both a top-level portalId
(7) and a differing origin.portalId (123) yields 123, not the claimed
top-level value 7 — extraction checks origin.portalId before the
top-level field. -/
theorem c3_counterexample_origin_beats_toplevel :
    extractPortalId
        (.obj [("portalId", .str "7"), ("origin", .obj [("portalId", .str "123")])]) =
      .num 123
    ∧ PortalIdResult.num 123 ≠ PortalIdResult.num 7 := by
  decide

/-- Claim C3 as amended: extraction searches the locations in the order
origin.portalId, then top-level portalId, then context.portalId,
returning the first truthy value parsed as an integer (with a final
workflow-action fallback), so whenever origin.portalId is truthy its
parse wins over every other location; {origin: {portalId: "123"}} yields
integer 123, {} yields null, and the top-level field still beats
context.portalId. -/
theorem c3_amended_extraction_order (body : JsonValue)
    (h : truthyOpt (jsGet2 body "origin" "portalId") = true) :
    extractPortalId body = toPortalIdResult (jsParseInt (jsGet2 body "origin" "portalId"))
    ∧ extractPortalId (.obj [("origin", .obj [("portalId", .str "123")])]) = .num 123
    ∧ extractPortalId (.obj []) = .null
    ∧ extractPortalId
        (.obj [("portalId", .str "7"), ("context", .obj [("portalId", .str "9")])]) = .num 7
    ∧ extractPortalId (.obj [("context", .obj [("portalId", .str "9")])]) = .num 9 := by
  refine ⟨?_, by decide, by decide, by decide, by decide⟩
  unfold extractPortalId
  rw [if_pos h]

/-- Closed instance of the amended C3: on the dual body the origin
location wins. -/
theorem c3_amended_extraction_order_witness :
    extractPortalId
        (.obj [("portalId", .str "7"), ("origin", .obj [("portalId", .str "123")])]) =
      toPortalIdResult (jsParseInt (jsGet2
        (.obj [("portalId", .str "7"), ("origin", .obj [("portalId", .str "123")])])
        "origin" "portalId")) :=
  (c3_amended_extraction_order
    (.obj [("portalId", .str "7"), ("origin", .obj [("portalId", .str "123")])])
    (by decide)).1

/-- Claim C4 (refuted, code bug): the /api/plants/associate handler takes
its bearer token from the HUBSPOT_ACCESS_TOKEN environment variable and
proceeds with it even when the token store holds a different, valid
OAuth token that getValidAccessToken would return. -/
theorem c4_associate_route_ignores_oauth_store :
    associateRoute ⟨some "id", some "secret", some "static-env-token"⟩ parseDemo "assoc" =
      .proceeds "static-env-token"
    ∧ (getValidAccessToken ⟨some "id", some "secret", some "static-env-token"⟩
        (fun _ => .error "unused") 0 [⟨123, "oauth-access-token", "rt", 10000000⟩] 123).result =
        .ok "oauth-access-token"
    ∧ "static-env-token" ≠ "oauth-access-token" :=
  ⟨by decide, by rfl, by decide⟩

/-- Claim C5: when the authorization server rejects the refresh grant,
refreshAccessToken (and getValidAccessToken in the refresh window) fails
with RefreshFailed after exactly the one attempted call, and the store —
including the stale record — is exactly as before. -/
theorem c5_refresh_failure_keeps_record (env : Env)
    (server : String → Except String TokenResponse) (now : Int) (store : Store)
    (portalId : Int) (td : TokenData) (msg : String)
    (hCreds : missingCreds env = false)
    (hGet : getTokenData store portalId = some td)
    (hServer : server td.refreshToken = .error msg) :
    refreshAccessToken env server now store portalId =
      ⟨.error (.refreshFailed msg), store, [td.refreshToken]⟩
    ∧ (now ≥ td.expiresAt - 5 * 60 * 1000 →
       getValidAccessToken env server now store portalId =
         ⟨.error (.refreshFailed msg), store, [td.refreshToken]⟩) := by
  have h1 : refreshAccessToken env server now store portalId =
      ⟨.error (.refreshFailed msg), store, [td.refreshToken]⟩ := by
    unfold refreshAccessToken
    rw [hCreds, hGet]
    simp [hServer]
  refine ⟨h1, fun hExpiring => ?_⟩
  unfold getValidAccessToken
  rw [hGet]
  simp only [if_pos hExpiring]
  exact h1

/-- Closed instance of C5: a failing refresh for tenant 1 surfaces
RefreshFailed and leaves the single stale record untouched. -/
theorem c5_refresh_failure_keeps_record_witness :
    getValidAccessToken ⟨some "id", some "secret", none⟩ (fun _ => .error "revoked")
        2000 [⟨1, "at", "rt", 1000⟩] 1 =
      ⟨.error (.refreshFailed "revoked"), [⟨1, "at", "rt", 1000⟩], ["rt"]⟩ :=
  (c5_refresh_failure_keeps_record ⟨some "id", some "secret", none⟩
    (fun _ => .error "revoked") 2000 [⟨1, "at", "rt", 1000⟩] 1
    ⟨1, "at", "rt", 1000⟩ "revoked" rfl rfl rfl).2 (by decide)

/-- Claim C6: after a successful refresh the persisted record keeps the
previously stored refresh token when the server's response omits a new
one, and holds the new (non-empty) one when the response includes it. -/
theorem c6_refresh_token_retention (env : Env)
    (server : String → Except String TokenResponse) (now : Int) (store : Store)
    (portalId : Int) (td : TokenData) (resp : TokenResponse)
    (hCreds : missingCreds env = false)
    (hGet : getTokenData store portalId = some td)
    (hServer : server td.refreshToken = .ok resp) :
    (resp.refreshToken = none →
      getTokenData (refreshAccessToken env server now store portalId).store portalId =
        some ⟨portalId, resp.accessToken, td.refreshToken,
              now + orDefaultNum resp.expiresIn 1800 * 1000⟩)
    ∧ (∀ s : String, resp.refreshToken = some s → s ≠ "" →
      getTokenData (refreshAccessToken env server now store portalId).store portalId =
        some ⟨portalId, resp.accessToken, s,
              now + orDefaultNum resp.expiresIn 1800 * 1000⟩) := by
  have h1 : refreshAccessToken env server now store portalId =
      ⟨.ok resp.accessToken,
       storeTokens store ⟨portalId, resp.accessToken,
         orDefaultStr resp.refreshToken td.refreshToken,
         now + orDefaultNum resp.expiresIn 1800 * 1000⟩,
       [td.refreshToken]⟩ := by
    unfold refreshAccessToken
    rw [hCreds, hGet]
    simp [hServer]
  constructor
  · intro h
    rw [h1]
    have : orDefaultStr resp.refreshToken td.refreshToken = td.refreshToken := by
      rw [h]; rfl
    rw [show (⟨portalId, resp.accessToken, td.refreshToken,
          now + orDefaultNum resp.expiresIn 1800 * 1000⟩ : TokenData) =
        ⟨portalId, resp.accessToken, orDefaultStr resp.refreshToken td.refreshToken,
          now + orDefaultNum resp.expiresIn 1800 * 1000⟩ from by rw [this]]
    exact getTokenData_storeTokens_self store _
  · intro s hs hne
    rw [h1]
    have : orDefaultStr resp.refreshToken td.refreshToken = s := by
      rw [hs]; simp [orDefaultStr, hne]
    rw [show (⟨portalId, resp.accessToken, s,
          now + orDefaultNum resp.expiresIn 1800 * 1000⟩ : TokenData) =
        ⟨portalId, resp.accessToken, orDefaultStr resp.refreshToken td.refreshToken,
          now + orDefaultNum resp.expiresIn 1800 * 1000⟩ from by rw [this]]
    exact getTokenData_storeTokens_self store _

/-- Closed instances of C6: a response without a refresh token keeps
"rt"; a response carrying "new-rt" persists "new-rt". -/
theorem c6_refresh_token_retention_witness :
    getTokenData (refreshAccessToken ⟨some "id", some "secret", none⟩
        (fun _ => .ok ⟨"new-at", none, none, none⟩) 2000 [⟨1, "at", "rt", 1000⟩] 1).store 1 =
      some ⟨1, "new-at", "rt", 2000 + orDefaultNum none 1800 * 1000⟩
    ∧ getTokenData (refreshAccessToken ⟨some "id", some "secret", none⟩
        (fun _ => .ok ⟨"new-at", some "new-rt", none, none⟩) 2000
        [⟨1, "at", "rt", 1000⟩] 1).store 1 =
      some ⟨1, "new-at", "new-rt", 2000 + orDefaultNum none 1800 * 1000⟩ :=
  ⟨(c6_refresh_token_retention ⟨some "id", some "secret", none⟩
      (fun _ => .ok ⟨"new-at", none, none, none⟩) 2000 [⟨1, "at", "rt", 1000⟩] 1
      ⟨1, "at", "rt", 1000⟩ ⟨"new-at", none, none, none⟩ rfl rfl rfl).1 rfl,
   (c6_refresh_token_retention ⟨some "id", some "secret", none⟩
      (fun _ => .ok ⟨"new-at", some "new-rt", none, none⟩) 2000 [⟨1, "at", "rt", 1000⟩] 1
      ⟨1, "at", "rt", 1000⟩ ⟨"new-at", some "new-rt", none, none⟩ rfl rfl rfl).2
     "new-rt" rfl (by decide)⟩

/-- Claim C7: for a tenant with no credential record, getValidAccessToken
fails with UnauthorizedTenant, makes no call to the authorization server,
and leaves the store unchanged. -/
theorem c7_unknown_tenant_rejected (env : Env)
    (server : String → Except String TokenResponse) (now : Int) (store : Store)
    (portalId : Int) (hGet : getTokenData store portalId = none) :
    getValidAccessToken env server now store portalId =
      ⟨.error (.unauthorizedTenant portalId), store, []⟩ := by
  unfold getValidAccessToken
  rw [hGet]

/-- Closed instance of C7: tenant 555 with an empty store. -/
theorem c7_unknown_tenant_rejected_witness :
    getValidAccessToken ⟨none, none, none⟩ (fun _ => .error "unused") 0 [] 555 =
      ⟨.error (.unauthorizedTenant 555), [], []⟩ :=
  c7_unknown_tenant_rejected ⟨none, none, none⟩ (fun _ => .error "unused") 0 [] 555 rfl

/-- Claim C8: request-body decoding is bounded at two JSON-decode
attempts and stops at the first non-string result — a body whose first
decode yields a non-string is decoded exactly once, a doubly-encoded
body (first decode yields a string) is decoded exactly twice, and no
body is ever decoded a third time. -/
theorem c8_decode_bounded (parse : String → Option JsonValue) (raw : String) :
    (decodeBody parse raw).2 ≤ 2
    ∧ (∀ v : JsonValue, parse raw = some v → v.isStr = false →
        decodeBody parse raw = (some v, 1))
    ∧ (∀ s : String, parse raw = some (.str s) → (decodeBody parse raw).2 = 2) := by
  refine ⟨?_, ?_, ?_⟩
  · unfold decodeBody
    rcases parse raw with _ | v
    · simp
    · rcases v with _ | b | n | s | fs <;> simp
      rcases h2 : parse s with _ | w <;> simp [h2]
  · intro v hv hstr
    unfold decodeBody
    rw [hv]
    rcases v with _ | b | n | s | fs <;> simp_all [JsonValue.isStr]
  · intro s hs
    unfold decodeBody
    rw [hs]
    rcases h2 : parse s with _ | w <;> simp [h2]

/-- Closed instances of C8 under the demo parse function: a
singly-encoded object body is decoded once, a doubly-encoded body
twice. -/
theorem c8_decode_bounded_witness :
    decodeBody parseDemo "one" = (some (.obj []), 1)
    ∧ (decodeBody parseDemo "two").2 = 2 :=
  ⟨(c8_decode_bounded parseDemo "one").2.1 (.obj []) rfl rfl,
   (c8_decode_bounded parseDemo "two").2.2 "one" rfl⟩

/-- Claim C9: extraction can return NaN rather than null — for a body
whose first matching location holds a non-numeric string, and for a body
with origin.extensionDefinitionId but no origin.portalId — and
authenticateRequest treats every falsy extraction result (null, NaN and
the integer 0) identically as a missing portal id, answering HTTP 400. -/
theorem c9_nan_and_falsy_portal_ids (env : Env)
    (server : String → Except String TokenResponse) (now : Int) (store : Store) :
    extractPortalId (.obj [("origin", .obj [("portalId", .str "abc")])]) = .nan
    ∧ extractPortalId (.obj [("origin", .obj [("extensionDefinitionId", .num 9)])]) = .nan
    ∧ (authenticateRequest env server now store
        (.obj [("origin", .obj [("portalId", .str "abc")])])).1 = .badRequest
    ∧ (authenticateRequest env server now store
        (.obj [("origin", .obj [("extensionDefinitionId", .num 9)])])).1 = .badRequest
    ∧ (authenticateRequest env server now store (.obj [])).1 = .badRequest
    ∧ extractPortalId (.obj [("portalId", .str "0")]) = .num 0
    ∧ (authenticateRequest env server now store (.obj [("portalId", .str "0")])).1 =
        .badRequest :=
  ⟨by decide, by decide, rfl, rfl, rfl, by decide, rfl⟩

/-- Claim C10: when the token response of an authorization-code exchange
omits hub_id, exchangeCodeForTokens does not fail: it parses the tenant
id as 0, returns token data with portalId 0, and upserts the record
under tenant id 0, so the lookup for tenant 0 afterwards yields exactly
the new record. -/
theorem c10_exchange_missing_hub_id (env : Env)
    (server : String → Except String TokenResponse) (now : Int) (store : Store)
    (code : String) (resp : TokenResponse)
    (hCreds : missingCreds env = false)
    (hServer : server code = .ok resp)
    (hHub : resp.hubId = none) :
    exchangeCodeForTokens env server now store code =
      (.ok ⟨0, resp.accessToken, resp.refreshToken.getD "",
            now + orDefaultNum resp.expiresIn 1800 * 1000⟩,
       storeTokens store ⟨0, resp.accessToken, resp.refreshToken.getD "",
            now + orDefaultNum resp.expiresIn 1800 * 1000⟩)
    ∧ getTokenData (exchangeCodeForTokens env server now store code).2 0 =
        some ⟨0, resp.accessToken, resp.refreshToken.getD "",
              now + orDefaultNum resp.expiresIn 1800 * 1000⟩ := by
  have h0 : (parseIntJS (orDefaultStr none "0")).getD 0 = (0 : Int) := by decide
  have h1 : exchangeCodeForTokens env server now store code =
      (.ok ⟨0, resp.accessToken, resp.refreshToken.getD "",
            now + orDefaultNum resp.expiresIn 1800 * 1000⟩,
       storeTokens store ⟨0, resp.accessToken, resp.refreshToken.getD "",
            now + orDefaultNum resp.expiresIn 1800 * 1000⟩) := by
    unfold exchangeCodeForTokens
    rw [hCreds]
    simp [hServer, hHub, h0]
  refine ⟨h1, ?_⟩
  rw [h1]
  exact getTokenData_storeTokens_self store _

/-- Closed instance of C10: with a pre-existing tenant-0 record in the
store, an exchange whose response omits hub_id stores the new record
under tenant 0, replacing the old one. -/
theorem c10_exchange_missing_hub_id_witness :
    exchangeCodeForTokens ⟨some "id", some "secret", none⟩
        (fun _ => .ok ⟨"a", some "r", none, none⟩) 5 [⟨0, "old-at", "old-rt", 99⟩] "code" =
      (.ok ⟨0, "a", "r", 5 + orDefaultNum none 1800 * 1000⟩,
       storeTokens [⟨0, "old-at", "old-rt", 99⟩] ⟨0, "a", "r", 5 + orDefaultNum none 1800 * 1000⟩)
    ∧ getTokenData (exchangeCodeForTokens ⟨some "id", some "secret", none⟩
        (fun _ => .ok ⟨"a", some "r", none, none⟩) 5 [⟨0, "old-at", "old-rt", 99⟩] "code").2 0 =
        some ⟨0, "a", "r", 5 + orDefaultNum none 1800 * 1000⟩ :=
  c10_exchange_missing_hub_id ⟨some "id", some "secret", none⟩
    (fun _ => .ok ⟨"a", some "r", none, none⟩) 5 [⟨0, "old-at", "old-rt", 99⟩] "code"
    ⟨"a", some "r", none, none⟩ rfl rfl rfl
